import Mathlib

/-!
Shallow embedding of `plugins/vsphere/pkg/command/source.go` from the
`sources-for-knative` repository: the `kn vsphere source` subcommand, which
validates flag options, builds a `VSphereSource` resource and submits one
create call through an injected client.

Strings stay `String`; Go `time.Duration` (an `int64` count of nanoseconds)
becomes `Int`; Go pointers that may be nil become `Option`; fallible Go
functions return `Except String`.  The external `net/url.Parse` is kept
abstract as a function parameter `parse : String → Except String String`
(the embedding never inspects the parsed value, only threads it through,
exactly as the Go code does).  `float64` arithmetic (used only by
`time.Duration.Seconds`) is modelled exactly over `ℚ` by round-to-nearest,
ties-to-even at 53 bits of significand; all values arising here are in the
normal range of `float64`, where that model is the IEEE-754 semantics.
-/

/-- `duckv1.KReference` as used by `sinkReference` (apiVersion, kind,
namespace, name). -/
structure KReference where
  APIVersion : String
  Kind : String
  Namespace : String
  Name : String
deriving DecidableEq, Repr

/-- `duckv1.Destination`: a sink destination carrying an optional typed
reference and an optional URI (both are nilable pointers in Go). -/
structure Destination where
  Ref : Option KReference
  URI : Option String
deriving DecidableEq, Repr

/-- `corev1.LocalObjectReference` (only the `Name` field is used). -/
structure LocalObjectReference where
  Name : String
deriving DecidableEq, Repr

/-- `v1alpha1.VAuthSpec`: vSphere connection parameters of the resource. -/
structure VAuthSpec where
  Address : String
  SkipTLSVerify : Bool
  SecretRef : LocalObjectReference
deriving DecidableEq, Repr

/-- `v1alpha1.VCheckpointSpec`: checkpoint parameters in whole seconds. -/
structure VCheckpointSpec where
  MaxAgeSeconds : Int
  PeriodSeconds : Int
deriving DecidableEq, Repr

/-- `duckv1.SourceSpec` (only the `Sink` field is set by this command). -/
structure SourceSpec where
  Sink : Destination
deriving DecidableEq, Repr

/-- `metav1.ObjectMeta` (only namespace and name are set by this command). -/
structure ObjectMeta where
  Namespace : String
  Name : String
deriving DecidableEq, Repr

/-- `v1alpha1.VSphereSourceSpec`: the spec of the declarative resource. -/
structure VSphereSourceSpec where
  SourceSpec : SourceSpec
  VAuthSpec : VAuthSpec
  CheckpointConfig : VCheckpointSpec
deriving DecidableEq, Repr

/-- `v1alpha1.VSphereSource`: the declarative resource submitted to the
cluster. -/
structure VSphereSource where
  ObjectMeta : ObjectMeta
  Spec : VSphereSourceSpec
deriving DecidableEq, Repr

/-- `SourceOptions` from source.go: the flat record populated by flag
parsing.  The two durations are `int64` nanosecond counts. -/
structure SourceOptions where
  Namespace : String := ""
  Name : String := ""
  Address : String := ""
  SkipTLSVerify : Bool := false
  SecretRef : String := ""
  SinkURI : String := ""
  SinkAPIVersion : String := ""
  SinkKind : String := ""
  SinkName : String := ""
  CheckpointMaxAge : Int := 0
  CheckpointPeriod : Int := 0
deriving DecidableEq, Repr

/-! ### Exact model of `float64` in the normal range

Go stores the checkpoint durations as `int64(d.Seconds())` where
`time.Duration.Seconds` is `float64(d / 1e9) + float64(d % 1e9) / 1e9` in
`float64` arithmetic.  We model a `float64` value by the rational it
denotes, and each operation by exact computation followed by rounding to
53 significant bits, to nearest, ties to even. -/

/-- Fuel-driven helper for `natLog2` (structural recursion, so that it
reduces inside the kernel). -/
def natLog2Aux : Nat → Nat → Nat
  | 0, _ => 0
  | fuel + 1, n => if 2 ≤ n then natLog2Aux fuel (n / 2) + 1 else 0

/-- Base-two logarithm of a natural number, rounded down (`natLog2 0 = 0`);
agrees with `Nat.log2` on every input. -/
def natLog2 (n : Nat) : Nat := natLog2Aux n n

/-- For `q > 0`, the integer `e` with `2 ^ e ≤ q < 2 ^ (e + 1)`. -/
def floorLog2 (q : ℚ) : Int :=
  let a : Int := natLog2 q.num.toNat
  let b : Int := natLog2 q.den
  if (2 : ℚ) ^ (a - b) ≤ q then a - b else a - b - 1

/-- Round a rational to the nearest integer, ties to even. -/
def roundNearestEven (q : ℚ) : Int :=
  let f := ⌊q⌋
  let r := q - (f : ℚ)
  if r < 1 / 2 then f
  else if 1 / 2 < r then f + 1
  else if f % 2 = 0 then f else f + 1

/-- Round a positive rational to 53 significant bits, to nearest, ties to
even (the `float64` rounding in the normal range). -/
def flPos (q : ℚ) : ℚ :=
  let e := floorLog2 q
  (roundNearestEven (q * 2 ^ (52 - e)) : ℚ) * 2 ^ (e - 52)

/-- The `float64` nearest to a rational (normal range; sign-symmetric). -/
def fl (q : ℚ) : ℚ :=
  if q < 0 then -flPos (-q) else if q = 0 then 0 else flPos q

/-- Go's `int64(f)` conversion of a `float64`: truncation toward zero. -/
def float64ToInt64 (q : ℚ) : Int :=
  q.num.tdiv (q.den : Int)

/-- `time.Duration.Seconds` for a duration of `d` nanoseconds:
`sec := d / 1e9; nsec := d % 1e9; float64(sec) + float64(nsec)/1e9`,
with `/` and `%` the Go (truncating) `int64` operations and the final
`+` and `/` performed in `float64`. -/
def durationSeconds (d : Int) : ℚ :=
  let sec : Int := d.tdiv 1000000000
  let nsec : Int := d.tmod 1000000000
  fl (fl (sec : ℚ) + fl (fl (nsec : ℚ) / (1000000000 : ℚ)))

/-- `int64(d.Seconds())` as written in `newSource` for the two checkpoint
fields. -/
def durationToSecondsInt64 (d : Int) : Int :=
  float64ToInt64 (durationSeconds d)

/-! ### The command's own functions, translated from source.go -/

/-- `SourceOptions.sinkURL`: nil when `SinkURI` is empty, otherwise the
result of `url.Parse(SinkURI)` (parse failure propagates). -/
def SourceOptions.sinkURL (parse : String → Except String String)
    (so : SourceOptions) : Except String (Option String) :=
  if so.SinkURI = "" then .ok none
  else
    match parse so.SinkURI with
    | .error err => .error err
    | .ok address => .ok (some address)

/-- `SourceOptions.sinkReference`: nil when `SinkAPIVersion` is empty,
otherwise a `KReference` copying the three coordinate fields and the given
namespace. -/
def SourceOptions.sinkReference (so : SourceOptions) (ns : String) :
    Option KReference :=
  if so.SinkAPIVersion = "" then none
  else some
    { APIVersion := so.SinkAPIVersion
      Kind := so.SinkKind
      Namespace := ns
      Name := so.SinkName }

/-- `SourceOptions.AsSinkDestination`: builds the `duckv1.Destination`
from `sinkURL` and `sinkReference`; fails only when `sinkURL` fails. -/
def SourceOptions.AsSinkDestination (parse : String → Except String String)
    (so : SourceOptions) (ns : String) : Except String Destination :=
  match so.sinkURL parse with
  | .error err => .error err
  | .ok apiURL => .ok { Ref := so.sinkReference ns, URI := apiURL }

/-- The `PreRunE` validation of `NewSourceCommand`, checking name, address,
secret-ref and the sink specification, with the exact Go error strings. -/
def preRunE (options : SourceOptions) : Except String Unit :=
  if options.Name = "" then
    .error "\x27name\x27 requires a nonempty name provided with the --name option"
  else if options.Address = "" then
    .error "\x27address\x27 requires a nonempty address provided with the --address option"
  else if options.SecretRef = "" then
    .error "\x27secret-ref\x27 requires a nonempty secret reference provided with the --secret-ref option"
  else
    let sinkCoordinatesAllEmpty : Prop :=
      options.SinkAPIVersion = "" ∧ options.SinkKind = "" ∧ options.SinkName = ""
    let sinkCoordinatesAllSet : Prop :=
      options.SinkAPIVersion ≠ "" ∧ options.SinkKind ≠ "" ∧ options.SinkName ≠ ""
    if (options.SinkURI = "" ∧ sinkCoordinatesAllEmpty) ∨
        (¬sinkCoordinatesAllEmpty ∧ ¬sinkCoordinatesAllSet) then
      .error ("sink requires an URI" ++
        "\nand/or a nonempty API version --sink-api-version option," ++
        "\nwith a nonempty kind --sink-kind option," ++
        "\nand with a nonempty name with the --sink-name")
    else
      .ok ()

/-- Modelled from the spec: `Clients.GetExplicitOrDefaultNamespace` (the
namespace-resolution collaborator in the repository's `pkg` package, not
part of this file) — "if `namespace` option is empty, ask the
namespace-resolution collaborator for the caller's default; otherwise use
the given value verbatim".  `dflt` is the collaborator's answer for the
default namespace. -/
def getExplicitOrDefaultNamespace (dflt : Except String String)
    (ns : String) : Except String String :=
  if ns = "" then dflt else .ok ns

/-- `newSource`: assembles the `VSphereSource` resource from the resolved
namespace, the built sink destination, the parsed address and the
options. -/
def newSource (ns : String) (sinkDestination : Destination)
    (address : String) (options : SourceOptions) : VSphereSource :=
  { ObjectMeta := { Namespace := ns, Name := options.Name }
    Spec :=
      { SourceSpec := { Sink := sinkDestination }
        VAuthSpec :=
          { Address := address
            SkipTLSVerify := options.SkipTLSVerify
            SecretRef := { Name := options.SecretRef } }
        CheckpointConfig :=
          { MaxAgeSeconds := durationToSecondsInt64 options.CheckpointMaxAge
            PeriodSeconds := durationToSecondsInt64 options.CheckpointPeriod } } }

instance {ε α : Type} [DecidableEq ε] [DecidableEq α] :
    DecidableEq (Except ε α)
  | .ok a, .ok b =>
    if h : a = b then .isTrue (by rw [h]) else .isFalse (by simp [h])
  | .ok _, .error _ => .isFalse (by simp)
  | .error _, .ok _ => .isFalse (by simp)
  | .error e, .error f =>
    if h : e = f then .isTrue (by rw [h]) else .isFalse (by simp [h])

/-- Observable outcome of running the command: every create call issued
(namespace of the call and submitted resource), every line printed to
standard output, and the returned result. -/
structure RunResult where
  createCalls : List (String × VSphereSource)
  output : List String
  result : Except String Unit
deriving DecidableEq, Repr

/-- The `RunE` body of `NewSourceCommand`.  `parse` stands for
`net/url.Parse`; `dflt` is the namespace collaborator's default-namespace
answer; `createResult` is what the injected client returns for the (single)
create call.  Go's `fmt.Errorf("...: %+v", err)` prefixes become string
concatenation. -/
def runE (parse : String → Except String String)
    (dflt : Except String String) (createResult : Except String Unit)
    (options : SourceOptions) : RunResult :=
  match getExplicitOrDefaultNamespace dflt options.Namespace with
  | .error err =>
    { createCalls := [], output := [],
      result := .error ("failed to get namespace: " ++ err) }
  | .ok ns =>
    match parse options.Address with
    | .error err =>
      { createCalls := [], output := [],
        result := .error ("failed to parse source address: " ++ err) }
    | .ok address =>
      match options.AsSinkDestination parse ns with
      | .error err =>
        { createCalls := [], output := [],
          result := .error ("failed to parse sink address: " ++ err) }
      | .ok sinkDestination =>
        let resource := newSource ns sinkDestination address options
        match createResult with
        | .error err =>
          { createCalls := [(ns, resource)], output := [],
            result := .error ("failed to create source: " ++ err) }
        | .ok _ =>
          { createCalls := [(ns, resource)], output := ["Created source"],
            result := .ok () }

/-- One invocation of the command as cobra runs it: `PreRunE` first, and
`RunE` only when validation succeeded. -/
def execute (parse : String → Except String String)
    (dflt : Except String String) (createResult : Except String Unit)
    (options : SourceOptions) : RunResult :=
  match preRunE options with
  | .error err => { createCalls := [], output := [], result := .error err }
  | .ok _ => runE parse dflt createResult options

/-! ### Validation characterisation (shared helper) -/

/-- `preRunE` succeeds exactly when name, address and secret-ref are
non-empty and the sink condition of the Go code is false. -/
theorem preRunE_ok_iff (o : SourceOptions) :
    preRunE o = .ok () ↔
      o.Name ≠ "" ∧ o.Address ≠ "" ∧ o.SecretRef ≠ "" ∧
      ¬((o.SinkURI = "" ∧
          (o.SinkAPIVersion = "" ∧ o.SinkKind = "" ∧ o.SinkName = "")) ∨
        (¬(o.SinkAPIVersion = "" ∧ o.SinkKind = "" ∧ o.SinkName = "") ∧
          ¬(o.SinkAPIVersion ≠ "" ∧ o.SinkKind ≠ "" ∧ o.SinkName ≠ ""))) := by
  unfold preRunE
  by_cases h1 : o.Name = "" <;> by_cases h2 : o.Address = "" <;>
    by_cases h3 : o.SecretRef = "" <;> simp [h1, h2, h3]

/-! ### C6 -/

/-- C6: with sinkAPIVersion "v1", sinkKind "Service", sinkName "svc",
empty sinkURI and resolved namespace "ns", the built sink destination has
a reference with exactly those coordinates and namespace, and a nil
URI. -/
theorem c6_reference_destination (parse : String → Except String String) :
    SourceOptions.AsSinkDestination parse
      { SinkAPIVersion := "v1", SinkKind := "Service", SinkName := "svc",
        SinkURI := "" } "ns" =
      .ok { Ref := some { APIVersion := "v1", Kind := "Service",
                          Namespace := "ns", Name := "svc" },
            URI := none } := rfl

/-! ### C1 -/

/-- C1 counterexample: an options record with a non-empty sinkURI and all
three sink coordinates set passes validation, and its built destination
carries a URI and a reference at the same time — the two representations
are not mutually exclusive. -/
theorem c1_counterexample :
    preRunE { Name := "source", Address := "https://vc", SecretRef := "cred",
              SinkURI := "http://sink", SinkAPIVersion := "v1",
              SinkKind := "Service", SinkName := "svc" } = .ok () ∧
    SourceOptions.AsSinkDestination (fun s => .ok s)
      { Name := "source", Address := "https://vc", SecretRef := "cred",
        SinkURI := "http://sink", SinkAPIVersion := "v1",
        SinkKind := "Service", SinkName := "svc" } "ns" =
      .ok { Ref := some { APIVersion := "v1", Kind := "Service",
                          Namespace := "ns", Name := "svc" },
            URI := some "http://sink" } := by
  exact ⟨by decide, rfl⟩

/-- C1 (amended): for every options record passing validation, a non-empty
sinkURI yields a destination whose URI is the parsed sinkURI, and an empty
sinkURI yields a purely reference-based destination (nil URI, reference
built from the resolved namespace and the three coordinate fields); the
two representations are not exclusive — both are present when sinkURI and
the coordinates are all given. -/
theorem c1_destination_shape (parse : String → Except String String)
    (ns : String) (so : SourceOptions) (hv : preRunE so = .ok ())
    (d : Destination) (hd : so.AsSinkDestination parse ns = .ok d) :
    (so.SinkURI ≠ "" → ∃ u, parse so.SinkURI = .ok u ∧ d.URI = some u) ∧
    (so.SinkURI = "" → d.URI = none ∧ so.SinkAPIVersion ≠ "" ∧
      d.Ref = some { APIVersion := so.SinkAPIVersion, Kind := so.SinkKind,
                     Namespace := ns, Name := so.SinkName }) := by
  rw [preRunE_ok_iff] at hv
  unfold SourceOptions.AsSinkDestination SourceOptions.sinkURL at hd
  by_cases hu : so.SinkURI = ""
  · simp only [hu, if_pos rfl] at hd
    refine ⟨fun h => absurd hu h, fun _ => ?_⟩
    have hAPI : so.SinkAPIVersion ≠ "" := by
      rcases hv with ⟨-, -, -, hsink⟩
      intro hA
      by_cases hK : so.SinkKind = "" <;> by_cases hN : so.SinkName = "" <;>
        simp [hu, hA, hK, hN] at hsink
    cases hd
    simp [SourceOptions.sinkReference, hAPI]
  · simp only [hu, if_neg hu] at hd
    refine ⟨fun _ => ?_, fun h => absurd h hu⟩
    cases hp : parse so.SinkURI with
    | error e => rw [hp] at hd; cases hd
    | ok u => rw [hp] at hd; cases hd; exact ⟨u, rfl, rfl⟩

/-- C1 witness: the amended theorem applied to a concrete validated record
with empty sinkURI. -/
theorem c1_witness :
    ({ Ref := some { APIVersion := "v1", Kind := "Service", Namespace := "ns",
                     Name := "svc" }, URI := none } : Destination).URI =
      none :=
  ((c1_destination_shape (fun s => .ok s) "ns"
    { Name := "s", Address := "a", SecretRef := "c", SinkURI := "",
      SinkAPIVersion := "v1", SinkKind := "Service", SinkName := "svc" }
    (by decide) _ rfl).2 rfl).1

/-! ### C10 -/

/-- C10: `AsSinkDestination` yields a nil reference exactly when
sinkAPIVersion is empty; a non-empty sinkAPIVersion copies sinkKind and
sinkName into the reference unchecked; an error arises only when sinkURI
is non-empty and fails to parse; an empty sinkURI always succeeds with a
nil URI. -/
theorem c10_as_sink_destination_cases (parse : String → Except String String)
    (ns : String) (so : SourceOptions) :
    (so.SinkURI = "" →
      so.AsSinkDestination parse ns =
        .ok { Ref := so.sinkReference ns, URI := none }) ∧
    (so.sinkReference ns = none ↔ so.SinkAPIVersion = "") ∧
    (so.SinkAPIVersion ≠ "" →
      so.sinkReference ns =
        some { APIVersion := so.SinkAPIVersion, Kind := so.SinkKind,
               Namespace := ns, Name := so.SinkName }) ∧
    (∀ d, so.AsSinkDestination parse ns = .ok d →
      d.Ref = so.sinkReference ns) ∧
    (∀ e, so.AsSinkDestination parse ns = .error e →
      so.SinkURI ≠ "" ∧ parse so.SinkURI = .error e) := by
  refine ⟨fun hu => ?_, ?_, fun hA => ?_, fun d hd => ?_, fun e he => ?_⟩
  · simp [SourceOptions.AsSinkDestination, SourceOptions.sinkURL, hu]
  · simp [SourceOptions.sinkReference]
  · simp [SourceOptions.sinkReference, hA]
  · unfold SourceOptions.AsSinkDestination SourceOptions.sinkURL at hd
    by_cases hu : so.SinkURI = ""
    · simp only [if_pos hu] at hd
      cases hd; rfl
    · simp only [if_neg hu] at hd
      cases hp : parse so.SinkURI with
      | error f => rw [hp] at hd; cases hd
      | ok u => rw [hp] at hd; cases hd; rfl
  · unfold SourceOptions.AsSinkDestination SourceOptions.sinkURL at he
    by_cases hu : so.SinkURI = ""
    · simp only [if_pos hu] at he; cases he
    · simp only [if_neg hu] at he
      refine ⟨hu, ?_⟩
      cases hp : parse so.SinkURI with
      | error f => rw [hp] at he; cases he; rfl
      | ok u => rw [hp] at he; cases he

/-- C10 witness: the first conjunct applied to a concrete record with an
empty sinkURI and a set apiVersion. -/
theorem c10_witness :
    SourceOptions.AsSinkDestination (fun s => .ok s)
      { SinkURI := "", SinkAPIVersion := "v1", SinkKind := "K",
        SinkName := "n" } "ns" =
      .ok { Ref := SourceOptions.sinkReference
              { SinkURI := "", SinkAPIVersion := "v1", SinkKind := "K",
                SinkName := "n" } "ns",
            URI := none } :=
  (c10_as_sink_destination_cases (fun s => .ok s) "ns"
    { SinkURI := "", SinkAPIVersion := "v1", SinkKind := "K",
      SinkName := "n" }).1 rfl

/-! ### C2 -/

/-- C2: whenever name, address or secretRef is empty, execution fails with
the validation error naming the missing option (checked in the Go order:
name, then address, then secret-ref) and no create call is issued. -/
theorem c2_required_options (parse : String → Except String String)
    (dflt : Except String String) (createResult : Except String Unit)
    (so : SourceOptions)
    (h : so.Name = "" ∨ so.Address = "" ∨ so.SecretRef = "") :
    (execute parse dflt createResult so).createCalls = [] ∧
    ∃ e, (execute parse dflt createResult so).result = .error e ∧
      ((so.Name = "" ∧
         e = "\x27name\x27 requires a nonempty name provided with the --name option") ∨
       (so.Name ≠ "" ∧ so.Address = "" ∧
         e = "\x27address\x27 requires a nonempty address provided with the --address option") ∨
       (so.Name ≠ "" ∧ so.Address ≠ "" ∧ so.SecretRef = "" ∧
         e = "\x27secret-ref\x27 requires a nonempty secret reference provided with the --secret-ref option")) := by
  by_cases h1 : so.Name = ""
  · refine ⟨by simp [execute, preRunE, h1], _, by simp [execute, preRunE, h1],
      .inl ⟨h1, rfl⟩⟩
  · by_cases h2 : so.Address = ""
    · refine ⟨by simp [execute, preRunE, h1, h2], _,
        by simp [execute, preRunE, h1, h2], .inr (.inl ⟨h1, h2, rfl⟩)⟩
    · by_cases h3 : so.SecretRef = ""
      · refine ⟨by simp [execute, preRunE, h1, h2, h3], _,
          by simp [execute, preRunE, h1, h2, h3],
          .inr (.inr ⟨h1, h2, h3, rfl⟩)⟩
      · exact absurd h (by simp [h1, h2, h3])

/-- C2 witness: the theorem applied to a record with an empty name. -/
theorem c2_witness :
    (execute (fun s => .ok s) (.ok "d") (.ok ())
      { Name := "", Address := "a", SecretRef := "c",
        SinkURI := "u" }).createCalls = [] :=
  (c2_required_options (fun s => .ok s) (.ok "d") (.ok ())
    { Name := "", Address := "a", SecretRef := "c", SinkURI := "u" }
    (.inl rfl)).1

/-! ### Validation error equations (shared helpers) -/

/-- An empty name makes `preRunE` fail with the name message. -/
theorem preRunE_name_error (o : SourceOptions) (h1 : o.Name = "") :
    preRunE o =
      .error "\x27name\x27 requires a nonempty name provided with the --name option" := by
  simp only [preRunE]
  rw [if_pos h1]

/-- An empty address (name present) makes `preRunE` fail with the address
message. -/
theorem preRunE_address_error (o : SourceOptions) (h1 : o.Name ≠ "")
    (h2 : o.Address = "") :
    preRunE o =
      .error "\x27address\x27 requires a nonempty address provided with the --address option" := by
  simp only [preRunE]
  rw [if_neg h1, if_pos h2]

/-- An empty secret-ref (name and address present) makes `preRunE` fail
with the secret-ref message. -/
theorem preRunE_secret_error (o : SourceOptions) (h1 : o.Name ≠ "")
    (h2 : o.Address ≠ "") (h3 : o.SecretRef = "") :
    preRunE o =
      .error "\x27secret-ref\x27 requires a nonempty secret reference provided with the --secret-ref option" := by
  simp only [preRunE]
  rw [if_neg h1, if_neg h2, if_pos h3]

/-- When name, address and secret-ref are present but the sink condition
of the Go code holds, `preRunE` fails with the sink message. -/
theorem preRunE_sink_error (o : SourceOptions) (h1 : o.Name ≠ "")
    (h2 : o.Address ≠ "") (h3 : o.SecretRef ≠ "")
    (hsink : (o.SinkURI = "" ∧
        (o.SinkAPIVersion = "" ∧ o.SinkKind = "" ∧ o.SinkName = "")) ∨
      (¬(o.SinkAPIVersion = "" ∧ o.SinkKind = "" ∧ o.SinkName = "") ∧
        ¬(o.SinkAPIVersion ≠ "" ∧ o.SinkKind ≠ "" ∧ o.SinkName ≠ ""))) :
    preRunE o =
      .error ("sink requires an URI" ++
        "\nand/or a nonempty API version --sink-api-version option," ++
        "\nwith a nonempty kind --sink-kind option," ++
        "\nand with a nonempty name with the --sink-name") := by
  simp only [preRunE]
  rw [if_neg h1, if_neg h2, if_neg h3, if_pos hsink]

/-- A validation failure short-circuits the whole invocation: no create
call, no output, and the validation error is returned. -/
theorem execute_validation_error (parse : String → Except String String)
    (dflt : Except String String) (createResult : Except String Unit)
    (o : SourceOptions) (e : String) (h : preRunE o = .error e) :
    execute parse dflt createResult o =
      { createCalls := [], output := [], result := .error e } := by
  unfold execute
  rw [h]

/-! ### C3 -/

/-- C3: with an empty sinkURI and the coordinate triple not fully set
(partially filled or entirely empty), execution fails before any create
call; when name, address and secret-ref are present the error is exactly
the sink validation message. -/
theorem c3_sink_spec_required (parse : String → Except String String)
    (dflt : Except String String) (createResult : Except String Unit)
    (so : SourceOptions) (hu : so.SinkURI = "")
    (hns : ¬(so.SinkAPIVersion ≠ "" ∧ so.SinkKind ≠ "" ∧ so.SinkName ≠ "")) :
    (execute parse dflt createResult so).createCalls = [] ∧
    (∃ e, (execute parse dflt createResult so).result = .error e) ∧
    (so.Name ≠ "" → so.Address ≠ "" → so.SecretRef ≠ "" →
      (execute parse dflt createResult so).result =
        .error ("sink requires an URI" ++
          "\nand/or a nonempty API version --sink-api-version option," ++
          "\nwith a nonempty kind --sink-kind option," ++
          "\nand with a nonempty name with the --sink-name")) := by
  have hsink : (so.SinkURI = "" ∧
      (so.SinkAPIVersion = "" ∧ so.SinkKind = "" ∧ so.SinkName = "")) ∨
      (¬(so.SinkAPIVersion = "" ∧ so.SinkKind = "" ∧ so.SinkName = "") ∧
        ¬(so.SinkAPIVersion ≠ "" ∧ so.SinkKind ≠ "" ∧ so.SinkName ≠ "")) := by
    by_cases hE : so.SinkAPIVersion = "" ∧ so.SinkKind = "" ∧ so.SinkName = ""
    · exact .inl ⟨hu, hE⟩
    · exact .inr ⟨hE, hns⟩
  by_cases h1 : so.Name = ""
  · have hex := execute_validation_error parse dflt createResult so _
      (preRunE_name_error so h1)
    exact ⟨by rw [hex], ⟨_, by rw [hex]⟩, fun hn _ _ => absurd h1 hn⟩
  · by_cases h2 : so.Address = ""
    · have hex := execute_validation_error parse dflt createResult so _
        (preRunE_address_error so h1 h2)
      exact ⟨by rw [hex], ⟨_, by rw [hex]⟩, fun _ ha _ => absurd h2 ha⟩
    · by_cases h3 : so.SecretRef = ""
      · have hex := execute_validation_error parse dflt createResult so _
          (preRunE_secret_error so h1 h2 h3)
        exact ⟨by rw [hex], ⟨_, by rw [hex]⟩, fun _ _ hs => absurd h3 hs⟩
      · have hex := execute_validation_error parse dflt createResult so _
          (preRunE_sink_error so h1 h2 h3 hsink)
        exact ⟨by rw [hex], ⟨_, by rw [hex]⟩, fun _ _ _ => by rw [hex]⟩

/-- C3 witness: the theorem applied to a record with an empty sinkURI and
only the kind coordinate set. -/
theorem c3_witness :
    (execute (fun s => .ok s) (.ok "d") (.ok ())
      { Name := "s", Address := "a", SecretRef := "c", SinkURI := "",
        SinkKind := "Service" }).result =
      .error ("sink requires an URI" ++
        "\nand/or a nonempty API version --sink-api-version option," ++
        "\nwith a nonempty kind --sink-kind option," ++
        "\nand with a nonempty name with the --sink-name") :=
  (c3_sink_spec_required (fun s => .ok s) (.ok "d") (.ok ())
      { Name := "s", Address := "a", SecretRef := "c", SinkURI := "",
        SinkKind := "Service" } rfl (by simp)).2.2
    (by simp) (by simp) (by simp)

/-! ### C9 -/

/-- C9: a non-empty sinkURI does not excuse a partially specified
coordinate triple — validation still fails and no create call is made,
with the sink message when the three required options are present. -/
theorem c9_partial_triple_with_uri (parse : String → Except String String)
    (dflt : Except String String) (createResult : Except String Unit)
    (so : SourceOptions) (_hu : so.SinkURI ≠ "")
    (hne : ¬(so.SinkAPIVersion = "" ∧ so.SinkKind = "" ∧ so.SinkName = ""))
    (hns : ¬(so.SinkAPIVersion ≠ "" ∧ so.SinkKind ≠ "" ∧ so.SinkName ≠ "")) :
    (execute parse dflt createResult so).createCalls = [] ∧
    (∃ e, (execute parse dflt createResult so).result = .error e) ∧
    (so.Name ≠ "" → so.Address ≠ "" → so.SecretRef ≠ "" →
      (execute parse dflt createResult so).result =
        .error ("sink requires an URI" ++
          "\nand/or a nonempty API version --sink-api-version option," ++
          "\nwith a nonempty kind --sink-kind option," ++
          "\nand with a nonempty name with the --sink-name")) := by
  have hsink : (so.SinkURI = "" ∧
      (so.SinkAPIVersion = "" ∧ so.SinkKind = "" ∧ so.SinkName = "")) ∨
      (¬(so.SinkAPIVersion = "" ∧ so.SinkKind = "" ∧ so.SinkName = "") ∧
        ¬(so.SinkAPIVersion ≠ "" ∧ so.SinkKind ≠ "" ∧ so.SinkName ≠ "")) :=
    .inr ⟨hne, hns⟩
  by_cases h1 : so.Name = ""
  · have hex := execute_validation_error parse dflt createResult so _
      (preRunE_name_error so h1)
    exact ⟨by rw [hex], ⟨_, by rw [hex]⟩, fun hn _ _ => absurd h1 hn⟩
  · by_cases h2 : so.Address = ""
    · have hex := execute_validation_error parse dflt createResult so _
        (preRunE_address_error so h1 h2)
      exact ⟨by rw [hex], ⟨_, by rw [hex]⟩, fun _ ha _ => absurd h2 ha⟩
    · by_cases h3 : so.SecretRef = ""
      · have hex := execute_validation_error parse dflt createResult so _
          (preRunE_secret_error so h1 h2 h3)
        exact ⟨by rw [hex], ⟨_, by rw [hex]⟩, fun _ _ hs => absurd h3 hs⟩
      · have hex := execute_validation_error parse dflt createResult so _
          (preRunE_sink_error so h1 h2 h3 hsink)
        exact ⟨by rw [hex], ⟨_, by rw [hex]⟩, fun _ _ _ => by rw [hex]⟩

/-- C9 witness: the theorem applied to a record with sinkURI set and only
sinkAPIVersion of the triple set. -/
theorem c9_witness :
    (execute (fun s => .ok s) (.ok "d") (.ok ())
      { Name := "s", Address := "a", SecretRef := "c",
        SinkURI := "http://sink", SinkAPIVersion := "v1" }).createCalls =
      [] :=
  (c9_partial_triple_with_uri (fun s => .ok s) (.ok "d") (.ok ())
      { Name := "s", Address := "a", SecretRef := "c",
        SinkURI := "http://sink", SinkAPIVersion := "v1" }
      (by simp) (by simp) (by simp)).1

/-! ### C4 -/

/-- A zero duration stores zero seconds (shared helper). -/
theorem durationToSecondsInt64_zero : durationToSecondsInt64 0 = 0 := by
  with_unfolding_all decide

set_option maxRecDepth 8000 in
/-- C4 counterexample: for a checkpoint duration of 16777216 seconds plus
999999999 nanoseconds, the assembled resource stores 16777217 — the
float64 value of `Seconds()` rounds up to the next integer — while
truncation toward zero of the same duration gives 16777216. -/
theorem c4_counterexample :
    (newSource "ns" { Ref := none, URI := none } "a"
        { Name := "s", CheckpointMaxAge := 16777216999999999,
          CheckpointPeriod := 16777216999999999 }).Spec.CheckpointConfig.MaxAgeSeconds =
      16777217 ∧
    (16777216999999999 : Int).tdiv 1000000000 = 16777216 := by
  constructor
  · with_unfolding_all decide
  · decide

/-- C4 (amended): the assembled resource stores each checkpoint duration
as `int64(d.Seconds())`, the float64 seconds value truncated toward zero —
which agrees with truncating the exact duration toward zero for moderate
durations, though not for all (see the counterexample); in particular a
checkpointMaxAge of 90 seconds plus 500 milliseconds stores 90, exactly
the truncation of 90.5. -/
theorem c4_checkpoint_seconds_example :
    (newSource "ns" { Ref := none, URI := none } "a"
        { Name := "s", CheckpointMaxAge := 90500000000,
          CheckpointPeriod := 90500000000 }).Spec.CheckpointConfig =
      { MaxAgeSeconds := 90, PeriodSeconds := 90 } ∧
    durationToSecondsInt64 90500000000 = (90500000000 : Int).tdiv 1000000000 := by
  constructor
  · with_unfolding_all decide
  · with_unfolding_all decide

/-! ### C5 -/

/-- C5: for the minimal valid options with a succeeding client, exactly one
create call is issued, carrying a resource whose Address is the parsed
address and whose SecretRef name is "cred"; the only output is the literal
"Created source" and the invocation succeeds. -/
theorem c5_minimal_success (parse : String → Except String String)
    (u v ns : String)
    (hpa : parse "https://vc.local" = .ok u)
    (hps : parse "http://sink" = .ok v) :
    execute parse (.ok ns) (.ok ())
      { Name := "s", Address := "https://vc.local", SecretRef := "cred",
        SinkURI := "http://sink" } =
      { createCalls := [(ns,
          { ObjectMeta := { Namespace := ns, Name := "s" },
            Spec :=
              { SourceSpec := { Sink := { Ref := none, URI := some v } },
                VAuthSpec :=
                  { Address := u, SkipTLSVerify := false,
                    SecretRef := { Name := "cred" } },
                CheckpointConfig :=
                  { MaxAgeSeconds := 0, PeriodSeconds := 0 } } })],
        output := ["Created source"], result := .ok () } := by
  simp [execute, preRunE, runE, getExplicitOrDefaultNamespace,
    SourceOptions.AsSinkDestination, SourceOptions.sinkURL,
    SourceOptions.sinkReference, newSource, hpa, hps,
    durationToSecondsInt64_zero]

/-- C5 witness: the theorem applied to an always-succeeding parse function
and the default namespace "default". -/
theorem c5_witness :
    execute (fun s => .ok s) (.ok "default") (.ok ())
      { Name := "s", Address := "https://vc.local", SecretRef := "cred",
        SinkURI := "http://sink" } =
      { createCalls := [("default",
          { ObjectMeta := { Namespace := "default", Name := "s" },
            Spec :=
              { SourceSpec :=
                  { Sink := { Ref := none, URI := some "http://sink" } },
                VAuthSpec :=
                  { Address := "https://vc.local", SkipTLSVerify := false,
                    SecretRef := { Name := "cred" } },
                CheckpointConfig :=
                  { MaxAgeSeconds := 0, PeriodSeconds := 0 } } })],
        output := ["Created source"], result := .ok () } :=
  c5_minimal_success (fun s => .ok s) "https://vc.local" "http://sink"
    "default" rfl rfl

/-! ### C7 -/

/-- C7: every invocation issues at most one create call; whenever the
result is an error nothing has been printed; and a failing create call
surfaces as the ApiError message wrapping the underlying cause. -/
theorem c7_single_create_attempt (parse : String → Except String String)
    (dflt : Except String String) (createResult : Except String Unit)
    (so : SourceOptions) :
    (execute parse dflt createResult so).createCalls.length ≤ 1 ∧
    (∀ e, (execute parse dflt createResult so).result = .error e →
      (execute parse dflt createResult so).output = []) ∧
    (∀ e, createResult = .error e →
      (execute parse dflt createResult so).createCalls ≠ [] →
      (execute parse dflt createResult so).result =
        .error ("failed to create source: " ++ e)) := by
  unfold execute runE
  refine ⟨?_, ?_, ?_⟩ <;> (repeat' split) <;> simp_all

/-- C7 witness: a failing create call on an otherwise valid invocation
returns the wrapped ApiError message. -/
theorem c7_witness :
    (execute (fun s => .ok s) (.ok "d") (.error "boom")
      { Name := "s", Address := "a", SecretRef := "c",
        SinkURI := "u" }).result =
      .error "failed to create source: boom" :=
  (c7_single_create_attempt (fun s => .ok s) (.ok "d") (.error "boom")
      { Name := "s", Address := "a", SecretRef := "c", SinkURI := "u" }).2.2
    "boom" rfl (by with_unfolding_all decide)

/-! ### C8 -/

/-- C8: the effective namespace is the explicit option when non-empty and
the collaborator default otherwise; a resolution failure stops the run
with the ConfigurationError message and no create call or output; on
success every create call is made in the resolved namespace and the
submitted resource carries that namespace in its metadata. -/
theorem c8_namespace_resolution (parse : String → Except String String)
    (dflt : Except String String) (createResult : Except String Unit)
    (so : SourceOptions) :
    (so.Namespace ≠ "" →
      getExplicitOrDefaultNamespace dflt so.Namespace = .ok so.Namespace) ∧
    (so.Namespace = "" →
      getExplicitOrDefaultNamespace dflt so.Namespace = dflt) ∧
    (∀ e, getExplicitOrDefaultNamespace dflt so.Namespace = .error e →
      runE parse dflt createResult so =
        { createCalls := [], output := [],
          result := .error ("failed to get namespace: " ++ e) }) ∧
    (∀ ns, getExplicitOrDefaultNamespace dflt so.Namespace = .ok ns →
      ∀ p ∈ (runE parse dflt createResult so).createCalls,
        p.1 = ns ∧ p.2.ObjectMeta.Namespace = ns) := by
  refine ⟨fun h => ?_, fun h => ?_, fun e he => ?_, fun ns hns p hp => ?_⟩
  · simp [getExplicitOrDefaultNamespace, h]
  · simp [getExplicitOrDefaultNamespace, h]
  · unfold runE
    rw [he]
  · unfold runE at hp
    (repeat' split at hp) <;> simp_all [newSource]

/-- C8 witness: a failing default-namespace resolution with an empty
namespace option stops the run with the ConfigurationError message. -/
theorem c8_witness :
    runE (fun s => .ok s) (.error "nope") (.ok ())
      { Name := "s", Address := "a", SecretRef := "c", SinkURI := "u" } =
      { createCalls := [], output := [],
        result := .error "failed to get namespace: nope" } :=
  (c8_namespace_resolution (fun s => .ok s) (.error "nope") (.ok ())
      { Name := "s", Address := "a", SecretRef := "c",
        SinkURI := "u" }).2.2.1 "nope" rfl

/-- C6 witness: the theorem applied to an always-succeeding parse
function. -/
theorem c6_witness :
    SourceOptions.AsSinkDestination (fun s => .ok s)
      { SinkAPIVersion := "v1", SinkKind := "Service", SinkName := "svc",
        SinkURI := "" } "ns" =
      .ok { Ref := some { APIVersion := "v1", Kind := "Service",
                          Namespace := "ns", Name := "svc" },
            URI := none } :=
  c6_reference_destination (fun s => .ok s)
